import Mathlib

/-!
Verification of the Assignment-Checker backend (src/backend/app.py and
src/backend/gemini_feedback.py) against its natural-language specification.

The Python source is shallowly embedded: Python `str` becomes `String`
(worked with through `List Char`), Python `int` becomes `Int` (or `Nat`
where the value is a length/count and hence provably non-negative, with
guards preserved so that truncated subtraction never differs from the
Python integer subtraction), Python exceptions become `Except String`,
and the external Gemini model is a parameter `model : String → Nat → String`
giving the raw text that attempt `n` with a given prompt receives.

ASCII approximations that the Python unicode string methods generalise
(`str.split()`, `str.strip()`, `str.lower()`) are modelled on the ASCII
whitespace / letter range; every concrete input used in a theorem below
stays inside that range, where the two semantics agree exactly.
-/

/-- The whitespace characters of Python's `str.split()` / `str.strip()`
(ASCII range: space, tab, newline, carriage return, vertical tab, form feed). -/
def isPySpace (c : Char) : Bool :=
  c = ' ' || c = '\t' || c = '\n' || c = '\r' || c = Char.ofNat 11 || c = Char.ofNat 12

/-- Helper for `pySplit`: accumulates the current word (reversed) while
scanning, emitting a word whenever a whitespace run ends. -/
def pyWordsAux : List Char → List Char → List String
  | [], acc => if acc.isEmpty then [] else [String.mk acc.reverse]
  | c :: cs, acc =>
    if isPySpace c then
      (if acc.isEmpty then pyWordsAux cs [] else String.mk acc.reverse :: pyWordsAux cs [])
    else pyWordsAux cs (c :: acc)

/-- Python `text.split()`: split on runs of whitespace, no empty tokens. -/
def pySplit (s : String) : List String := pyWordsAux s.toList []

/-- `count_words` from app.py: `len(text.split())`. -/
def count_words (text : String) : Nat := (pySplit text).length

/-- Python `s.strip()`: drop whitespace from both ends. -/
def pyStrip (s : String) : String :=
  String.mk (((s.toList.dropWhile isPySpace).reverse.dropWhile isPySpace).reverse)

/-- Python `s.lower()` (ASCII case mapping). -/
def pyLower (s : String) : String := String.mk (s.toList.map Char.toLower)

/-- Does `needle` occur at the very start of `hay`? -/
def startsWithChars : List Char → List Char → Bool
  | [], _ => true
  | _ :: _, [] => false
  | n :: ns, h :: hs => n = h && startsWithChars ns hs

/-- Does `needle` occur anywhere in `hay`? -/
def containsChars (needle : List Char) : List Char → Bool
  | [] => needle.isEmpty
  | h :: hs => startsWithChars needle (h :: hs) || containsChars needle hs

/-- Python `needle in hay` on strings: substring containment. -/
def containsSub (hay needle : String) : Bool := containsChars needle.toList hay.toList

/-- The section flags computed by `check_sections` in app.py. -/
structure Sections where
  has_introduction : Bool
  has_body : Bool
  has_conclusion : Bool
deriving Repr, DecidableEq

/-- `check_sections` from app.py: keyword presence checks on the lowercased
text, with the >50-words fallback for the body flag. -/
def check_sections (text : String) : Sections :=
  let text_lower := pyLower text
  let has_intro := ["introduction", "intro", "introduce"].any fun k => containsSub text_lower k
  let has_body :=
    (["body", "main", "content", "discuss"].any fun k => containsSub text_lower k)
      || decide (50 < count_words text)
  let has_conclusion :=
    ["conclusion", "conclude", "summary", "summarize"].any fun k => containsSub text_lower k
  { has_introduction := has_intro, has_body := has_body, has_conclusion := has_conclusion }

/-- A sentence terminator: `.`, `!` or `?` (the class in `re.split(r'[.!?]+', text)`). -/
def isTerminator (c : Char) : Bool := c = '.' || c = '!' || c = '?'

/-- Helper for `reSplitTerm`: the Boolean flag records whether the previous
character belonged to a terminator run, so a run of terminators produces a
single split (the `+` in the regular expression `[.!?]+`). -/
def reSplitAux : List Char → List Char → Bool → List String
  | [], acc, _ => [String.mk acc.reverse]
  | c :: cs, acc, justSplit =>
    if isTerminator c then
      (if justSplit then reSplitAux cs [] true
       else String.mk acc.reverse :: reSplitAux cs [] true)
    else reSplitAux cs (c :: acc) false

/-- Python `re.split(r'[.!?]+', text)`: split on maximal runs of sentence
terminators. -/
def reSplitTerm (text : String) : List String := reSplitAux text.toList [] false

/-- `find_long_sentences` from app.py: split into sentences, strip each,
skip empty ones, keep those with more than `max_words` words; returns
the pair `(count, list)` exactly as the Python function does. -/
def find_long_sentences (text : String) (max_words : Nat) : Nat × List String :=
  let sentences := reSplitTerm text
  let long_sentences := sentences.filterMap fun s =>
    let t := pyStrip s
    if t ≠ "" then (if max_words < count_words t then some t else none) else none
  (long_sentences.length, long_sentences)

/-- The sentence-splitting pipeline inlined in `find_long_sentences`
(app.py lines 144–149): regex split, strip each piece, discard empties. -/
def splitSentences (text : String) : List String :=
  ((reSplitTerm text).map pyStrip).filter fun t => t ≠ ""

/-- The analysis report returned by `analyze_assignment` in app.py. -/
structure Report where
  word_count : Nat
  sections : Sections
  long_sentences_count : Nat
  long_sentences : List String
  overall_score : Int
  feedback : String
deriving Repr, DecidableEq

/-- `analyze_assignment` from app.py: metrics, section flags, long
sentences, the deduction-based score clamped at 0, and the feedback
lines joined with newlines. The word-count deduction is computed in `Nat`
under the `word_count < 200` guard, where Python's `(200 - word_count) // 10`
coincides with natural subtraction and division. -/
def analyze_assignment (text : String) : Report :=
  let word_count := count_words text
  let sections := check_sections text
  let fl := find_long_sentences text 20
  let long_count := fl.1
  let long_sentences := fl.2
  let score1 : Int := 100
  let score2 := if sections.has_introduction then score1 else score1 - 20
  let score3 := if sections.has_body then score2 else score2 - 20
  let score4 := if sections.has_conclusion then score3 else score3 - 20
  let score5 := score4 - ((min (long_count * 2) 20 : Nat) : Int)
  let score6 :=
    if word_count < 200 then score5 - ((min ((200 - word_count) / 10) 20 : Nat) : Int)
    else score5
  let score := max 0 score6
  let feedback_parts := [
    (if word_count < 200 then
      "⚠️ Word count is " ++ toString word_count ++ ", which is below the recommended 200 words."
     else "✅ Word count: " ++ toString word_count ++ " words (Good!)"),
    (if sections.has_introduction then "✅ Introduction section found."
     else "❌ Missing Introduction section."),
    (if sections.has_body then "✅ Body section found." else "❌ Missing Body section."),
    (if sections.has_conclusion then "✅ Conclusion section found."
     else "❌ Missing Conclusion section."),
    (if 0 < long_count then
      "⚠️ Found " ++ toString long_count ++
        " sentence(s) with more than 20 words. Consider breaking them into shorter sentences."
     else "✅ All sentences are within the recommended length.")]
  let feedback := String.intercalate "\n" feedback_parts
  { word_count := word_count, sections := sections, long_sentences_count := long_count,
    long_sentences := long_sentences.take 5, overall_score := score, feedback := feedback }

/-! ## gemini_feedback.py: brace-balanced JSON extraction -/

/-- The scanner state of `extract_json` in gemini_feedback.py:
`brace_count`, `in_string` and `escape`. -/
structure ScanSt where
  brace_count : Int
  in_string : Bool
  escape : Bool
deriving Repr, DecidableEq

/-- Result of one iteration of the `extract_json` scanning loop: either the
loop continues with an updated state, or the closing brace bringing the
depth back to zero was just consumed. -/
inductive StepRes where
  | cont : ScanSt → StepRes
  | done : StepRes
deriving Repr, DecidableEq

/-- One iteration of the character loop of `extract_json`
(gemini_feedback.py lines 87–109), in the source's order of checks:
pending escape first, then backslash, then quote toggling, then brace
counting only outside string context. -/
def scanStep (st : ScanSt) (ch : Char) : StepRes :=
  if st.escape then .cont { st with escape := false }
  else if ch = '\\' then .cont { st with escape := true }
  else if ch = '"' then .cont { st with in_string := !st.in_string }
  else if st.in_string then .cont st
  else if ch = '{' then .cont { st with brace_count := st.brace_count + 1 }
  else if ch = '}' then
    (if st.brace_count - 1 = 0 then .done
     else .cont { st with brace_count := st.brace_count - 1 })
  else .cont st

/-- Runs `scanStep` along the characters, returning the index (relative to
the start of the scan) of the closing brace at which the depth returned to
zero, or `none` if the input ends first. -/
def scanLoop : ScanSt → List Char → Nat → Option Nat
  | _, [], _ => none
  | st, ch :: rest, pos =>
    match scanStep st ch with
    | .done => some pos
    | .cont st2 => scanLoop st2 rest (pos + 1)

/-- Python's find of the first opening brace in `raw_text`: its index, or
`none` when absent (Python returns −1). -/
def findBrace : List Char → Option Nat
  | [] => none
  | c :: cs => if c = '{' then some 0 else (findBrace cs).map (· + 1)

/-- The candidate JSON block selected by `extract_json`: from the first `{`
through the brace that closes it, or the two error messages raised in the
source when no `{` exists or the scan ends at nonzero depth. -/
def extract_json_block (raw : String) : Except String String :=
  match findBrace raw.toList with
  | none => .error "No JSON object found in Gemini response"
  | some start =>
    match scanLoop { brace_count := 0, in_string := false, escape := false }
        (raw.toList.drop start) 0 with
    | none => .error "Incomplete JSON (missing closing brace)"
    | some i => .ok (String.mk ((raw.toList.drop start).take (i + 1)))

/-- JSON values, as returned by Python's `json.loads` (integers only for
numbers; the model responses the claims exercise contain no floats). -/
inductive Json where
  | null : Json
  | bool : Bool → Json
  | num : Int → Json
  | str : String → Json
  | arr : List Json → Json
  | obj : List (String × Json) → Json

/-- JSON insignificant whitespace. -/
def jsonWs (c : Char) : Bool := c = ' ' || c = '\t' || c = '\n' || c = '\r'

/-- Drop leading JSON whitespace. -/
def skipJsonWs (cs : List Char) : List Char := cs.dropWhile jsonWs

/-- A JSON single-character string escape (`\u` escapes are not modelled;
no input used in a theorem contains one). -/
def decodeEsc (c : Char) : Option Char :=
  if c = '"' then some '"'
  else if c = '\\' then some '\\'
  else if c = '/' then some '/'
  else if c = 'n' then some '\n'
  else if c = 't' then some '\t'
  else if c = 'r' then some '\r'
  else if c = 'b' then some (Char.ofNat 8)
  else if c = 'f' then some (Char.ofNat 12)
  else none

/-- Parses the body of a JSON string (the opening quote already consumed),
returning the decoded string and the remaining characters. -/
def parseJString : List Char → List Char → Option (String × List Char)
  | [], _ => none
  | '\\' :: [], _ => none
  | '\\' :: e :: rest, acc =>
    (match decodeEsc e with
     | some c => parseJString rest (c :: acc)
     | none => none)
  | '"' :: rest, acc => some (String.mk acc.reverse, rest)
  | c :: rest, acc => parseJString rest (c :: acc)

/-- Digits to a natural number. -/
def digitsToNat (ds : List Char) : Nat := ds.foldl (fun n c => n * 10 + (c.toNat - 48)) 0

/-- Parses a JSON integer (optional minus sign followed by digits). -/
def parseJNum (cs : List Char) : Option (Json × List Char) :=
  match cs with
  | '-' :: rest =>
    let ds := rest.takeWhile Char.isDigit
    if ds.isEmpty then none
    else some (.num (-(digitsToNat ds : Int)), rest.drop ds.length)
  | _ =>
    let ds := cs.takeWhile Char.isDigit
    if ds.isEmpty then none else some (.num (digitsToNat ds), cs.drop ds.length)

/-- Mode of the recursive-descent JSON reader: a value, the remainder of an
object after `\x7b` or a comma, or the remainder of an array. The Boolean
records whether the closing bracket may come immediately (i.e. no member
has been separated by a comma yet). -/
inductive PMode where
  | value : PMode
  | objRest : List (String × Json) → Bool → PMode
  | arrRest : List Json → Bool → PMode

/-- Fuel-indexed recursive-descent JSON reader modelling Python's
`json.loads` on the integer/string subset of JSON. -/
def parseRun : Nat → PMode → List Char → Option (Json × List Char)
  | 0, _, _ => none
  | fuel + 1, PMode.value, cs =>
    (match skipJsonWs cs with
     | '"' :: rest =>
       (match parseJString rest [] with
        | some (s, r) => some (Json.str s, r)
        | none => none)
     | '{' :: rest => parseRun fuel (PMode.objRest [] true) rest
     | '[' :: rest => parseRun fuel (PMode.arrRest [] true) rest
     | 't' :: 'r' :: 'u' :: 'e' :: rest => some (Json.bool true, rest)
     | 'f' :: 'a' :: 'l' :: 's' :: 'e' :: rest => some (Json.bool false, rest)
     | 'n' :: 'u' :: 'l' :: 'l' :: rest => some (Json.null, rest)
     | other => parseJNum other)
  | fuel + 1, PMode.objRest acc first, cs =>
    (match skipJsonWs cs with
     | '}' :: rest => if first then some (Json.obj acc.reverse, rest) else none
     | '"' :: rest =>
       (match parseJString rest [] with
        | none => none
        | some (k, r1) =>
          (match skipJsonWs r1 with
           | ':' :: r2 =>
             (match parseRun fuel PMode.value r2 with
              | none => none
              | some (v, r3) =>
                (match skipJsonWs r3 with
                 | ',' :: r4 => parseRun fuel (PMode.objRest ((k, v) :: acc) false) r4
                 | '}' :: r4 => some (Json.obj ((k, v) :: acc).reverse, r4)
                 | _ => none))
           | _ => none))
     | _ => none)
  | fuel + 1, PMode.arrRest acc first, cs =>
    (match skipJsonWs cs with
     | ']' :: rest => if first then some (Json.arr acc.reverse, rest) else none
     | other =>
       (match parseRun fuel PMode.value other with
        | none => none
        | some (v, r1) =>
          (match skipJsonWs r1 with
           | ',' :: r2 => parseRun fuel (PMode.arrRest (v :: acc) false) r2
           | ']' :: r2 => some (Json.arr (v :: acc).reverse, r2)
           | _ => none)))

/-- Python `json.loads`: parse one JSON value and require only whitespace
after it; `none` models a raised `JSONDecodeError`. -/
def jsonLoads (s : String) : Option Json :=
  match parseRun (s.length + 1) PMode.value s.toList with
  | some (v, rest) => if (skipJsonWs rest).isEmpty then some v else none
  | none => none

/-- `extract_json` from gemini_feedback.py: find the first `\x7b`, scan for
the balancing `\x7d`, and `json.loads` the enclosed block; each failure is
the corresponding raised exception (a `JSONDecodeError` from `json.loads`
is kept abstract as its class name). -/
def extract_json (raw : String) : Except String Json :=
  match extract_json_block raw with
  | .error e => .error e
  | .ok block =>
    match jsonLoads block with
    | some v => .ok v
    | none => .error "JSONDecodeError"

/-! ## gemini_feedback.py: prompt, model call and retry loop -/

/-- The f-string prompt built by `generate_ai_feedback`. -/
def build_prompt (text : String) : String :=
  "\nReturn ONLY valid JSON. Keep values short. No explanations.\n\n\x7b\n  \"overall_evaluation\": \"max 2 sentences\",\n  \"strengths\": [\"p1\",\"p2\",\"p3\"],\n  \"weaknesses\": [\"p1\",\"p2\",\"p3\"],\n  \"suggestions\": [\"p1\",\"p2\",\"p3\"]\n\x7d\n\nText:\n"
    ++ text ++ "\n"

/-- `generate_ai_feedback` from gemini_feedback.py, with the external
Gemini model abstracted as `model prompt attempt`, the raw text the
model returns on the given attempt (the source strips it before
extraction). Attempt 0 runs first; only when its extraction fails is
attempt 1 made with the same prompt, and if that extraction also fails
the second failure is re-raised wrapped in "Gemini API error: ". -/
def generate_ai_feedback (model : String → Nat → String) (text : String) :
    Except String Json :=
  let prompt := build_prompt text
  match extract_json (pyStrip (model prompt 0)) with
  | .ok fb => .ok fb
  | .error _ =>
    match extract_json (pyStrip (model prompt 1)) with
    | .ok fb => .ok fb
    | .error e2 => .error ("Gemini API error: " ++ e2)

/-- The number of model invocations `generate_ai_feedback` performs: one
when the first extraction succeeds, two otherwise (the loop body runs at
most twice). -/
def generate_ai_feedback_calls (model : String → Nat → String) (text : String) : Nat :=
  match extract_json (pyStrip (model (build_prompt text) 0)) with
  | .ok _ => 1
  | .error _ => 2

/-! ## app.py: report assembly and storage encoding -/

/-- The response payload assembled by `check_assignment` (and identically
by `submit_assignment`) in app.py: the deterministic report plus either
the AI feedback or the caught exception message. -/
structure CheckResponse where
  success : Bool
  report : Report
  ai_feedback : Option Json
  ai_error : Option String

/-- The report-assembly core of `check_assignment` / `submit_assignment`
in app.py: always compute `analyze_assignment`; call the AI, catching any
exception into `ai_error` while leaving `ai_feedback` null. -/
def check_assignment_core (model : String → Nat → String) (text : String) :
    CheckResponse :=
  let analysis := analyze_assignment text
  match generate_ai_feedback model text with
  | .ok fb => { success := true, report := analysis, ai_feedback := some fb, ai_error := none }
  | .error e => { success := true, report := analysis, ai_feedback := none, ai_error := some e }

/-- Concatenation with newline separators: Python `"\n".join` on the
underlying character lists. -/
def joinNlChars : List (List Char) → List Char
  | [] => []
  | [s] => s
  | s :: t :: rest => s ++ '\n' :: joinNlChars (t :: rest)

/-- The storage encoding of `long_sentences` used by `submit_assignment`
(app.py line 316): `'\n'.join(analysis['long_sentences'])`. -/
def encode_long_sentences (l : List String) : String :=
  String.mk (joinNlChars (l.map String.toList))

/-- Python `s.split('\n')` on the underlying characters. -/
def splitNlAux : List Char → List Char → List (List Char)
  | [], acc => [acc.reverse]
  | c :: cs, acc =>
    if c = '\n' then acc.reverse :: splitNlAux cs [] else splitNlAux cs (c :: acc)

/-- The read-side decoding used by `get_report` (app.py line 373):
`report[7].split('\n') if report[7] else []`. -/
def decode_long_sentences (s : String) : List String :=
  if s = "" then [] else (splitNlAux s.toList []).map String.mk

/-! ## Helper lemmas -/

lemma mk_toList (s : String) : String.mk s.toList = s := rfl

lemma filterMap_strip_filter (m : Nat) (l : List String) :
    (l.filterMap fun s =>
      let t := pyStrip s
      if t ≠ "" then (if m < count_words t then some t else none) else none)
      = ((l.map pyStrip).filter fun t => t ≠ "").filter fun t => m < count_words t := by
  induction l with
  | nil => rfl
  | cons s rest ih =>
    simp only [List.filterMap_cons, List.map_cons, List.filter_cons]
    by_cases h1 : pyStrip s = ""
    · simp [h1]
      simpa using ih
    · by_cases h2 : m < count_words (pyStrip s)
      · simp [h1, h2]
        simpa using ih
      · simp [h1, h2]
        simpa using ih

lemma find_long_eq_filter (text : String) (m : Nat) :
    (find_long_sentences text m).2
      = (splitSentences text).filter fun s => m < count_words s := by
  simp only [find_long_sentences, splitSentences]
  exact filterMap_strip_filter m (reSplitTerm text)

lemma find_long_mem {text : String} {m : Nat} {s : String}
    (h : s ∈ (find_long_sentences text m).2) : s ≠ "" ∧ m < count_words s := by
  rw [find_long_eq_filter] at h
  have h2 := List.of_mem_filter h
  have h1 := List.mem_of_mem_filter h
  simp only [splitSentences, List.mem_filter] at h1
  refine ⟨by simpa using h1.2, by simpa using h2⟩

lemma findBrace_eq_none {cs : List Char} (h : ∀ c ∈ cs, c ≠ '{') :
    findBrace cs = none := by
  induction cs with
  | nil => rfl
  | cons c rest ih =>
    have hc : c ≠ '{' := h c (List.mem_cons_self c rest)
    have hrest := ih fun x hx => h x (List.mem_cons_of_mem c hx)
    simp [findBrace, hc, hrest]

lemma splitNlAux_no_nl (s : List Char) (acc : List Char) (h : '\n' ∉ s) :
    splitNlAux s acc = [acc.reverse ++ s] := by
  induction s generalizing acc with
  | nil => simp [splitNlAux]
  | cons c cs ih =>
    have hc : c ≠ '\n' := fun e => h (e ▸ List.mem_cons_self c cs)
    have hcs : '\n' ∉ cs := fun hm => h (List.mem_cons_of_mem c hm)
    simp [splitNlAux, hc, ih _ hcs]

lemma splitNlAux_append (s t acc : List Char) (h : '\n' ∉ s) :
    splitNlAux (s ++ '\n' :: t) acc = (acc.reverse ++ s) :: splitNlAux t [] := by
  induction s generalizing acc with
  | nil => simp [splitNlAux]
  | cons c cs ih =>
    have hc : c ≠ '\n' := fun e => h (e ▸ List.mem_cons_self c cs)
    have hcs : '\n' ∉ cs := fun hm => h (List.mem_cons_of_mem c hm)
    simp [splitNlAux, hc, ih _ hcs]

lemma splitNl_joinNl (l : List (List Char)) (hne : l ≠ [])
    (h : ∀ s ∈ l, '\n' ∉ s) : splitNlAux (joinNlChars l) [] = l := by
  induction l with
  | nil => cases hne rfl
  | cons s rest ih =>
    cases rest with
    | nil =>
      have := splitNlAux_no_nl s [] (h s (List.mem_cons_self s []))
      simpa [joinNlChars] using this
    | cons t r =>
      rw [joinNlChars, splitNlAux_append s _ [] (h s (List.mem_cons_self s _))]
      rw [ih (by simp) fun x hx => h x (List.mem_cons_of_mem s hx)]
      simp

lemma joinNlChars_ne_nil (l : List (List Char)) (hne : l ≠ [])
    (hhead : ∀ s ∈ l, s ≠ []) : joinNlChars l ≠ [] := by
  cases l with
  | nil => cases hne rfl
  | cons s rest =>
    cases rest with
    | nil => simpa [joinNlChars] using hhead s (List.mem_cons_self s [])
    | cons t r => simp [joinNlChars]

/-! ## Claim theorems -/

/-- C1: for every input string `text`, the `overall_score` field of the
report returned by `analyze_assignment text` is an integer in the closed
interval [0, 100]. -/
theorem c1_overall_score_in_range (text : String) :
    0 ≤ (analyze_assignment text).overall_score
      ∧ (analyze_assignment text).overall_score ≤ 100 := by
  simp only [analyze_assignment]
  split_ifs <;> constructor <;> omega

/-- C6: for every input text, `long_sentences` equals the first five long
sentences (length `min(long_sentences_count, 5)`), is a prefix in original
encounter order of the list of all sentences with more than 20 words, and
`long_sentences_count` is the untruncated number of such sentences. -/
theorem c6_long_sentences_truncation (text : String) :
    (analyze_assignment text).long_sentences = ((find_long_sentences text 20).2).take 5
    ∧ (analyze_assignment text).long_sentences.length
        = min ((analyze_assignment text).long_sentences_count) 5
    ∧ (analyze_assignment text).long_sentences <+: (find_long_sentences text 20).2
    ∧ (analyze_assignment text).long_sentences_count
        = ((find_long_sentences text 20).2).length
    ∧ (find_long_sentences text 20).2
        = (splitSentences text).filter (fun s => 20 < count_words s)
    ∧ (∀ s ∈ (find_long_sentences text 20).2, 20 < count_words s) := by
  refine ⟨rfl, ?_, ?_, rfl, find_long_eq_filter text 20, fun s hs => (find_long_mem hs).2⟩
  · show (((find_long_sentences text 20).2).take 5).length
        = min ((find_long_sentences text 20).2).length 5
    rw [List.length_take, Nat.min_comm]
  · exact ⟨((find_long_sentences text 20).2).drop 5, List.take_append_drop 5 _⟩

/-- Witness for C6 at a concrete input: a sentence of 21 words is reported
as a long sentence of the text consisting of it. -/
theorem c6_long_sentences_truncation_witness :
    20 < count_words "a a a a a a a a a a a a a a a a a a a a a" :=
  (c6_long_sentences_truncation "a a a a a a a a a a a a a a a a a a a a a").2.2.2.2.2
    "a a a a a a a a a a a a a a a a a a a a a" (by decide)

/-- C7: sentence splitting treats runs of `.`, `!`, `?` as one delimiter,
trims each piece and discards empty pieces; "A. B! C?" yields
["A","B","C"] and "A.. B" yields ["A","B"]; the split pipeline is the one
`find_long_sentences` filters. -/
theorem c7_sentence_splitting :
    (∀ (text : String) (m : Nat), (find_long_sentences text m).2
        = (splitSentences text).filter (fun s => m < count_words s))
    ∧ splitSentences "A. B! C?" = ["A", "B", "C"]
    ∧ splitSentences "A.. B" = ["A", "B"]
    ∧ (∀ text : String, "" ∉ splitSentences text)
    ∧ (∀ (text s : String), s ∈ splitSentences text →
        ∃ raw ∈ reSplitTerm text, s = pyStrip raw) := by
  refine ⟨find_long_eq_filter, by decide, by decide, ?_, ?_⟩
  · intro text hmem
    simp only [splitSentences, List.mem_filter] at hmem
    simpa using hmem.2
  · intro text s hs
    simp only [splitSentences, List.mem_filter, List.mem_map] at hs
    obtain ⟨⟨raw, hraw, hmap⟩, _⟩ := hs
    exact ⟨raw, hraw, hmap.symm⟩

/-- Witness for C7 at a concrete input: the piece "A" of "A. B! C?" is the
trim of a raw regex piece. -/
theorem c7_sentence_splitting_witness :
    ∃ raw ∈ reSplitTerm "A. B! C?", "A" = pyStrip raw :=
  c7_sentence_splitting.2.2.2.2 "A. B! C?" "A" (by decide)

/-- C8: `analyze_assignment ""` returns word count 0, all three section
flags false, no long sentences, and overall score exactly 20. -/
theorem c8_empty_text :
    (analyze_assignment "").word_count = 0
    ∧ (analyze_assignment "").sections
        = { has_introduction := false, has_body := false, has_conclusion := false }
    ∧ (analyze_assignment "").long_sentences_count = 0
    ∧ (analyze_assignment "").long_sentences = []
    ∧ (analyze_assignment "").overall_score = 20 :=
  ⟨rfl, by decide, rfl, rfl, by decide⟩

/-- C9: the deterministic analysis is a total function of the input string:
for every text (the empty string included) `analyze_assignment` yields a
report whose every field is the value of the corresponding total helper,
so no exception path exists. -/
theorem c9_analysis_total (text : String) :
    (analyze_assignment text).word_count = count_words text
    ∧ (analyze_assignment text).sections = check_sections text
    ∧ (analyze_assignment text).long_sentences_count = (find_long_sentences text 20).1
    ∧ (analyze_assignment text).long_sentences = ((find_long_sentences text 20).2).take 5 :=
  ⟨rfl, rfl, rfl, rfl⟩

/-- C2: `extract_json` starts at the first opening brace; braces seen in
string context leave the scanner state unchanged; on the claim's three
concrete responses it returns exactly the parse of the enclosed object,
fails with the incomplete-JSON error, and returns the parse of just the
object; and a response without any opening brace fails with the
no-JSON-object error. -/
theorem c2_extract_json_behavior :
    (∀ (st : ScanSt) (ch : Char), st.in_string = true → st.escape = false →
        ch = '{' ∨ ch = '}' → scanStep st ch = .cont st)
    ∧ (∀ raw : String, (∀ c ∈ raw.toList, c ≠ '{') →
        extract_json raw = .error "No JSON object found in Gemini response")
    ∧ extract_json "\x7b\"a\": \"\x7d still inside\"\x7d"
        = .ok (Json.obj [("a", Json.str "\x7d still inside")])
    ∧ jsonLoads "\x7b\"a\": \"\x7d still inside\"\x7d"
        = some (Json.obj [("a", Json.str "\x7d still inside")])
    ∧ extract_json "\x7b\"a\": 1" = .error "Incomplete JSON (missing closing brace)"
    ∧ extract_json "noise \x7b\"a\":1\x7d trailing" = .ok (Json.obj [("a", Json.num 1)])
    ∧ jsonLoads "\x7b\"a\":1\x7d" = some (Json.obj [("a", Json.num 1)]) := by
  refine ⟨?_, ?_, rfl, rfl, rfl, rfl, rfl⟩
  · intro st ch hin hesc hbr
    rcases hbr with h | h <;> subst h <;> simp [scanStep, hesc, hin]
  · intro raw h
    have hb : findBrace raw.toList = none := findBrace_eq_none h
    simp only [String.toList] at hb
    simp [extract_json, extract_json_block, hb]

/-- Witness for C2 at concrete inputs: a closing brace inside a string
leaves the scanner state unchanged, and a brace-free response yields the
no-JSON-object error. -/
theorem c2_extract_json_behavior_witness :
    scanStep { brace_count := 1, in_string := true, escape := false } '}'
        = .cont { brace_count := 1, in_string := true, escape := false }
    ∧ extract_json "no braces at all"
        = .error "No JSON object found in Gemini response" :=
  ⟨c2_extract_json_behavior.1 { brace_count := 1, in_string := true, escape := false }
      '}' rfl rfl (Or.inr rfl),
   c2_extract_json_behavior.2.1 "no braces at all" (by decide)⟩

/-- C10: the escape-pending flag is honoured even outside string context:
with `escape` set, any next character only clears the flag (it is never
counted as a brace nor toggles the string flag), so a brace or quote
directly after a backslash outside a string does not affect the scan; on
the concrete inputs the block therefore extends past the escaped brace
and the escaped quote. -/
theorem c10_escape_skips_outside_string :
    (∀ (st : ScanSt) (ch : Char), st.escape = true →
        scanStep st ch = .cont { st with escape := false })
    ∧ extract_json_block "\x7b\\\x7b\"a\":1\x7d" = .ok "\x7b\\\x7b\"a\":1\x7d"
    ∧ extract_json_block "\x7b\\\"\x7d" = .ok "\x7b\\\"\x7d" := by
  refine ⟨?_, rfl, rfl⟩
  intro st ch h
  simp [scanStep, h]

/-- Witness for C10 at a concrete input: with a pending escape outside any
string, an opening brace is skipped and only clears the flag. -/
theorem c10_escape_skips_outside_string_witness :
    scanStep { brace_count := 1, in_string := false, escape := true } '{'
        = .cont { brace_count := 1, in_string := false, escape := false } :=
  c10_escape_skips_outside_string.1
    { brace_count := 1, in_string := false, escape := true } '{' rfl

/-- C4: `generate_ai_feedback` invokes the model once and returns its
extracted feedback if extraction succeeds; otherwise it retries exactly
once more with the same prompt (never more than 2 calls); if extraction
fails on both attempts it raises an error wrapping the underlying
extraction-failure cause. -/
theorem c4_retry_protocol (model : String → Nat → String) (text : String) :
    generate_ai_feedback_calls model text ≤ 2
    ∧ (∀ fb, extract_json (pyStrip (model (build_prompt text) 0)) = .ok fb →
        generate_ai_feedback_calls model text = 1
          ∧ generate_ai_feedback model text = .ok fb)
    ∧ (∀ e1 e2, extract_json (pyStrip (model (build_prompt text) 0)) = .error e1 →
        extract_json (pyStrip (model (build_prompt text) 1)) = .error e2 →
        generate_ai_feedback_calls model text = 2
          ∧ generate_ai_feedback model text = .error ("Gemini API error: " ++ e2)) := by
  refine ⟨?_, ?_, ?_⟩
  · cases hx : extract_json (pyStrip (model (build_prompt text) 0)) <;>
      simp [generate_ai_feedback_calls, hx]
  · intro fb hx
    constructor
    · simp [generate_ai_feedback_calls, hx]
    · simp [generate_ai_feedback, hx]
  · intro e1 e2 h1 h2
    constructor
    · simp [generate_ai_feedback_calls, h1]
    · simp [generate_ai_feedback, h1, h2]

/-- Witness for C4 at a concrete input: a model that always answers
brace-free text makes both extractions fail, so the result wraps the
second extraction error. -/
theorem c4_retry_protocol_witness :
    generate_ai_feedback_calls (fun _ _ => "no json") "some essay" = 2
    ∧ generate_ai_feedback (fun _ _ => "no json") "some essay"
        = .error ("Gemini API error: " ++ "No JSON object found in Gemini response") :=
  (c4_retry_protocol (fun _ _ => "no json") "some essay").2.2
    "No JSON object found in Gemini response" "No JSON object found in Gemini response"
    rfl rfl

/-- C3: when extraction fails on both model attempts, the assembler does
not throw: the response carries a null `ai_feedback` and a non-null
`ai_error`, while the deterministic report and each of its fields is
still the full output of `analyze_assignment`. -/
theorem c3_ai_failure_non_throwing (model : String → Nat → String) (text : String)
    (e1 e2 : String)
    (h1 : extract_json (pyStrip (model (build_prompt text) 0)) = .error e1)
    (h2 : extract_json (pyStrip (model (build_prompt text) 1)) = .error e2) :
    (check_assignment_core model text).ai_feedback = none
    ∧ (check_assignment_core model text).ai_error ≠ none
    ∧ (check_assignment_core model text).report = analyze_assignment text
    ∧ (check_assignment_core model text).report.word_count = count_words text
    ∧ (check_assignment_core model text).report.sections = check_sections text
    ∧ (check_assignment_core model text).report.long_sentences_count
        = (find_long_sentences text 20).1
    ∧ (check_assignment_core model text).report.long_sentences
        = ((find_long_sentences text 20).2).take 5
    ∧ (check_assignment_core model text).report.overall_score
        = (analyze_assignment text).overall_score
    ∧ (check_assignment_core model text).report.feedback
        = (analyze_assignment text).feedback := by
  have hg : generate_ai_feedback model text = .error ("Gemini API error: " ++ e2) := by
    simp [generate_ai_feedback, h1, h2]
  simp [check_assignment_core, hg]
  exact ⟨rfl, rfl, rfl, rfl⟩

/-- Witness for C3 at a concrete input: with a model that always answers
brace-free text, the response has null AI feedback, a non-null error, and
the untouched deterministic report. -/
theorem c3_ai_failure_non_throwing_witness :
    (check_assignment_core (fun _ _ => "junk") "Hello there").ai_feedback = none
    ∧ (check_assignment_core (fun _ _ => "junk") "Hello there").ai_error ≠ none
    ∧ (check_assignment_core (fun _ _ => "junk") "Hello there").report
        = analyze_assignment "Hello there" := by
  have h := c3_ai_failure_non_throwing (fun _ _ => "junk") "Hello there"
    "No JSON object found in Gemini response" "No JSON object found in Gemini response"
    rfl rfl
  exact ⟨h.1, h.2.1, h.2.2.1⟩

/-- Round trip of the newline storage encoding on any list of nonempty
strings none of which contains a newline. -/
lemma roundtrip_list (l : List String) (hne : ∀ s ∈ l, s ≠ "")
    (h : ∀ s ∈ l, '\n' ∉ s.toList) :
    decode_long_sentences (encode_long_sentences l) = l := by
  cases l with
  | nil => rfl
  | cons a rest =>
    have hJ : joinNlChars ((a :: rest).map String.toList) ≠ [] := by
      apply joinNlChars_ne_nil _ (by simp)
      intro x hx
      obtain ⟨s, hsmem, hxeq⟩ := List.mem_map.mp hx
      intro hxnil
      apply hne s hsmem
      have hsl : s.toList = [] := hxeq.symm ▸ hxnil
      rw [← mk_toList s, hsl]
    have hnl : ∀ cs ∈ (a :: rest).map String.toList, '\n' ∉ cs := by
      intro cs hcs
      obtain ⟨s, hsmem, hEq⟩ := List.mem_map.mp hcs
      rw [← hEq]
      exact h s hsmem
    have hcond : ¬ (encode_long_sentences (a :: rest) = "") := by
      intro heq
      exact hJ (congrArg String.data heq)
    simp only [decode_long_sentences]
    rw [if_neg hcond]
    show (splitNlAux (joinNlChars ((a :: rest).map String.toList)) []).map String.mk
        = a :: rest
    rw [splitNl_joinNl _ (by simp) hnl, List.map_map]
    have hco : (String.mk ∘ String.toList) = id := funext fun s => mk_toList s
    rw [hco, List.map_id]

/-- C5 counterexample: the claim fails as stated. A text whose single long
sentence contains an internal newline round-trips to two stored lines, so
splitting on newline does not recover the original one-element list. -/
theorem c5_counterexample :
    decode_long_sentences (encode_long_sentences
        ((analyze_assignment "a b c d e f g h i j\nk l m n o p q r s t u").long_sentences))
      ≠ (analyze_assignment "a b c d e f g h i j\nk l m n o p q r s t u").long_sentences := by
  decide

/-- C5 amended: for every input text none of whose reported long sentences
contains a newline character, joining `long_sentences` with newlines and
splitting on newline on read recovers exactly the original list. -/
theorem c5_roundtrip_without_newlines (text : String)
    (h : ∀ s ∈ (analyze_assignment text).long_sentences, '\n' ∉ s.toList) :
    decode_long_sentences
        (encode_long_sentences (analyze_assignment text).long_sentences)
      = (analyze_assignment text).long_sentences := by
  apply roundtrip_list _ _ h
  intro s hs
  have hs2 : s ∈ (find_long_sentences text 20).2 := List.take_subset 5 _ hs
  exact (find_long_mem hs2).1

/-- Witness for amended C5 at a concrete input: a 21-word sentence without
newlines survives the storage round trip. -/
theorem c5_roundtrip_without_newlines_witness :
    decode_long_sentences
        (encode_long_sentences
          (analyze_assignment "b b b b b b b b b b b b b b b b b b b b b").long_sentences)
      = (analyze_assignment "b b b b b b b b b b b b b b b b b b b b b").long_sentences :=
  c5_roundtrip_without_newlines "b b b b b b b b b b b b b b b b b b b b b" (by decide)
